import Mathlib

/-!
Verification of the DGA-detection pipeline specified for the RAPIDS
DGA_Detection notebook.  The notebook itself is glue over the external CLX
library (`DGADetector`, its tokenizer, trainer, persistence and predictor);
those components are modelled here from the specification, while the
notebook's own constants (`CHAR_VOCAB`, `N_LAYERS`, `HIDDEN_SIZE`,
`N_DOMAIN_TYPE`) are taken from the source.
-/

namespace DGA

/-- Modelled from the spec: the error taxonomy of section 7 — ConfigurationError
(invalid architecture hyperparameters), DataError (malformed or mismatched
training data/labels), CorruptArtifact (unreadable or inconsistent saved
model), InferenceError (prediction requested on an un-loaded/untrained
model). -/
inductive PipelineError where
  | ConfigurationError
  | DataError
  | CorruptArtifact
  | InferenceError
deriving DecidableEq

/-- Notebook constant (cell 9): learning rate, `LR = 0.001`. -/
def LR : ℚ := 1 / 1000

/-- Notebook constant (cell 9): number of recurrent layers, `N_LAYERS = 3`. -/
def N_LAYERS : Nat := 3

/-- Notebook constant (cell 9): vocabulary size, `CHAR_VOCAB = 128` ASCII
characters. -/
def CHAR_VOCAB : Nat := 128

/-- Notebook constant (cell 9): hidden state width, `HIDDEN_SIZE = 100`. -/
def HIDDEN_SIZE : Nat := 100

/-- Notebook constant (cell 9): number of domain classes,
`N_DOMAIN_TYPE = 2` (benign / DGA). -/
def N_DOMAIN_TYPE : Nat := 2

/-- Modelled from the spec: the maximum (padded) token-sequence length; domain
names are "typically ≤ 128 characters". -/
def MAX_LEN : Nat := 128

/-- Modelled from the spec (section 3, CLX tokenizer is external): a
Vocabulary is a fixed mapping from characters to integer codes, with a
reserved padding code and a reserved unknown code. -/
structure Vocab where
  size : Nat
  inVocab : Char → Bool
  code : Char → Nat
  padCode : Nat
  unkCode : Nat

/-- Well-formedness of a vocabulary: the reserved codes and every in-vocabulary
character's code lie in `[0, size)`. -/
def Vocab.WF (v : Vocab) : Prop :=
  v.padCode < v.size ∧ v.unkCode < v.size ∧
    ∀ c : Char, v.inVocab c = true → v.code c < v.size

/-- Modelled from the spec: a character in the vocabulary maps to its code;
every character outside the vocabulary maps to the reserved unknown code. -/
def tokenizeChar (v : Vocab) (c : Char) : Nat :=
  if v.inVocab c then v.code c else v.unkCode

/-- Modelled from the spec (section 4.1, the CLX tokenizer is external):
strings longer than the maximum length are truncated, shorter strings are
padded with the reserved code, producing a fixed-length sequence. -/
def tokenize (v : Vocab) (maxLen : Nat) (s : List Char) : List Nat :=
  let t := (s.take maxLen).map (tokenizeChar v)
  t ++ List.replicate (maxLen - t.length) v.padCode

/-- Modelled from the spec and notebook cell 9: the concrete 128-character
ASCII vocabulary; the NUL character (code 0), which never occurs in a domain
name, serves as both the reserved padding code and the reserved unknown
code. -/
def asciiVocab : Vocab where
  size := CHAR_VOCAB
  inVocab := fun c => decide (0 < c.toNat ∧ c.toNat < 128)
  code := fun c => c.toNat
  padCode := 0
  unkCode := 0

theorem asciiVocab_wf : asciiVocab.WF := by
  refine ⟨by simp [asciiVocab, CHAR_VOCAB], by simp [asciiVocab, CHAR_VOCAB], ?_⟩
  intro c hc
  simpa [asciiVocab, CHAR_VOCAB] using (of_decide_eq_true hc).2

theorem tokenize_length (v : Vocab) (maxLen : Nat) (s : List Char) :
    (tokenize v maxLen s).length = maxLen := by
  simp only [tokenize, List.length_append, List.length_map, List.length_take,
    List.length_replicate]
  omega

theorem tokenize_mem_lt (v : Vocab) (hv : v.WF) (maxLen : Nat) (s : List Char) :
    ∀ t ∈ tokenize v maxLen s, t < v.size := by
  intro t ht
  simp only [tokenize, List.mem_append, List.mem_map, List.mem_replicate] at ht
  rcases ht with ⟨c, _, rfl⟩ | ⟨_, rfl⟩
  · unfold tokenizeChar
    by_cases hc : v.inVocab c
    · simpa [hc] using hv.2.2 c hc
    · simpa [hc] using hv.2.1
  · exact hv.1

/-- Claim C3: for every domain string the tokenizer produces a sequence of
exactly the fixed maximum length whose every element is in `[0, vocab_size)`;
longer strings are truncated, shorter strings are padded with the reserved
code, and every out-of-vocabulary character maps to the reserved unknown
code. -/
theorem tokenize_spec (v : Vocab) (maxLen : Nat) (s : List Char) (hv : v.WF) :
    (tokenize v maxLen s).length = maxLen ∧
    (∀ t ∈ tokenize v maxLen s, t < v.size) ∧
    tokenize v maxLen s = tokenize v maxLen (s.take maxLen) ∧
    (s.length ≤ maxLen →
      tokenize v maxLen s =
        s.map (tokenizeChar v) ++ List.replicate (maxLen - s.length) v.padCode) ∧
    (∀ c : Char, v.inVocab c = false → tokenizeChar v c = v.unkCode) := by
  refine ⟨tokenize_length v maxLen s, tokenize_mem_lt v hv maxLen s, ?_, ?_, ?_⟩
  · simp [tokenize, List.take_take]
  · intro h
    simp [tokenize, List.take_of_length_le h]
  · intro c hc
    simp [tokenizeChar, hc]

theorem tokenize_spec_witness :
    asciiVocab.WF ∧
      (tokenize asciiVocab MAX_LEN [Char.ofNat 110, Char.ofNat 118]).length = MAX_LEN :=
  ⟨asciiVocab_wf,
    (tokenize_spec asciiVocab MAX_LEN [Char.ofNat 110, Char.ofNat 118] asciiVocab_wf).1⟩

/-- Claim C7: tokenization is a deterministic, pure function of the string and
the vocabulary — two tokenization runs on the same string of length at most
`maxLen` under the same vocabulary yield identical token sequences. -/
theorem tokenize_deterministic (v : Vocab) (maxLen : Nat) (s₁ s₂ : List Char)
    (heq : s₁ = s₂) (hlen : s₁.length ≤ maxLen) :
    tokenize v maxLen s₁ = tokenize v maxLen s₂ := by
  rw [heq]

theorem tokenize_deterministic_witness :
    [Char.ofNat 97].length ≤ MAX_LEN ∧
      tokenize asciiVocab MAX_LEN [Char.ofNat 97] =
        tokenize asciiVocab MAX_LEN [Char.ofNat 97] :=
  ⟨by decide,
    tokenize_deterministic asciiVocab MAX_LEN [Char.ofNat 97] [Char.ofNat 97] rfl (by decide)⟩

/-- Modelled from the spec (section 4.2, the CLX classifier is external): the
architecture configuration fixed at construction — number of recurrent
layers, vocabulary size, hidden state width, number of output classes. -/
structure ModelConfig where
  n_layers : Nat
  char_vocab : Nat
  hidden_size : Nat
  n_domain_type : Nat
deriving DecidableEq

/-- Modelled from the spec: the number of parameter words determined by the
configuration — an embedding table, per-layer GRU gate matrices and biases,
and a final linear projection to class logits. -/
def paramCount (c : ModelConfig) : Nat :=
  c.char_vocab * c.hidden_size
    + c.n_layers * (3 * (2 * c.hidden_size * c.hidden_size + 2 * c.hidden_size))
    + c.hidden_size * c.n_domain_type + c.n_domain_type

/-- Modelled from the spec: a sequence classifier is its configuration plus its
Model Parameters, persisted byte-for-byte as a flat sequence of words. -/
structure RNNClassifier where
  config : ModelConfig
  params : List Nat
deriving DecidableEq

/-- Well-formedness: the parameter payload has exactly the size determined by
the configuration. -/
def RNNClassifier.WF (m : RNNClassifier) : Prop :=
  m.params.length = paramCount m.config

/-- A configuration is consistent when every hyperparameter is nonzero. -/
def ModelConfig.valid (c : ModelConfig) : Bool :=
  (c.n_layers != 0) && (c.char_vocab != 0) && (c.hidden_size != 0) &&
    (c.n_domain_type != 0)

/-- Modelled from the spec: deterministic seeded parameter initialization (a
linear-congruential stream of 32-bit words). -/
def initParams (seed n : Nat) : List Nat :=
  (List.range n).map (fun i => (1103515245 * (seed + i) + 12345) % 4294967296)

/-- Modelled from the spec (sections 4.2 and 7, `DGADetector.init_model` is
external): constructing a classifier with inconsistent configuration values
fails with a ConfigurationError; otherwise the parameters are initialized from
the seed. -/
def init_model (seed n_layers char_vocab hidden_size n_domain_type : Nat) :
    Except PipelineError RNNClassifier :=
  let cfg : ModelConfig := ⟨n_layers, char_vocab, hidden_size, n_domain_type⟩
  if cfg.valid then .ok ⟨cfg, initParams seed (paramCount cfg)⟩
  else .error .ConfigurationError

theorem init_model_wf (seed nl cv hs nd : Nat) (m : RNNClassifier)
    (h : init_model seed nl cv hs nd = .ok m) : m.WF := by
  simp only [init_model] at h
  split at h
  · cases h
    simp [RNNClassifier.WF, initParams]
  · cases h

/-- Claim C8: constructing a classifier with inconsistent configuration values
(for example zero recurrent layers) fails with a ConfigurationError rather
than producing a classifier. -/
theorem init_model_invalid_config (seed nl cv hs nd : Nat)
    (h : nl = 0 ∨ cv = 0 ∨ hs = 0 ∨ nd = 0) :
    init_model seed nl cv hs nd = .error .ConfigurationError := by
  unfold init_model
  have hvalid : ModelConfig.valid ⟨nl, cv, hs, nd⟩ = false := by
    simp only [ModelConfig.valid, Bool.and_eq_false_iff, bne_eq_false_iff_eq]
    rcases h with h | h | h | h <;> simp [h]
  simp [hvalid]

theorem init_model_invalid_config_witness :
    ((0 : Nat) = 0 ∨ CHAR_VOCAB = 0 ∨ HIDDEN_SIZE = 0 ∨ N_DOMAIN_TYPE = 0) ∧
      init_model 7 0 CHAR_VOCAB HIDDEN_SIZE N_DOMAIN_TYPE =
        .error .ConfigurationError :=
  ⟨Or.inl rfl,
    init_model_invalid_config 7 0 CHAR_VOCAB HIDDEN_SIZE N_DOMAIN_TYPE (Or.inl rfl)⟩

/-- Modelled from the spec (section 4.4, CLX persistence is external): `save`
serializes the configuration (layers, vocab size, hidden size, class count)
followed by the parameter payload length and the parameter words themselves,
as a single flat artifact. -/
def serializeModel (m : RNNClassifier) : List Nat :=
  m.config.n_layers :: m.config.char_vocab :: m.config.hidden_size ::
    m.config.n_domain_type :: m.params.length :: m.params

/-- Modelled from the spec (section 4.4): `load` reconstructs a classifier
from a saved artifact, failing with CorruptArtifact when the stored
configuration is missing or structurally inconsistent with the binary payload
size. -/
def deserializeModel (a : List Nat) : Except PipelineError RNNClassifier :=
  match a with
  | nl :: cv :: hs :: nd :: len :: rest =>
    if rest.length = len ∧ len = paramCount ⟨nl, cv, hs, nd⟩ then
      .ok ⟨⟨nl, cv, hs, nd⟩, rest⟩
    else .error .CorruptArtifact
  | _ => .error .CorruptArtifact

theorem deserialize_serialize (m : RNNClassifier) (hwf : m.WF) :
    deserializeModel (serializeModel m) = .ok m := by
  obtain ⟨⟨nl, cv, hs, nd⟩, ps⟩ := m
  simp only [RNNClassifier.WF] at hwf
  simp [serializeModel, deserializeModel, hwf]

/-- Modelled from the spec (section 4.2, the GRU internals are an external
black box out of scope): the forward pass is a pure function of the
configuration, the Model Parameters and one token sequence, producing a
predicted class. -/
def Forward : Type :=
  ModelConfig → List Nat → List Nat → Nat

/-- Modelled from the notebook (cells 11 and 19) and the spec: a `DGADetector`
holds a learning rate and, once `init_model` or `load_model` has run, a
classifier; a freshly constructed detector holds none. -/
structure DGADetector where
  lr : ℚ
  modelState : Option RNNClassifier

/-- A freshly constructed detector (notebook cell 19: `DGADetector()`). -/
def DGADetector.new (lr : ℚ) : DGADetector :=
  ⟨lr, none⟩

/-- Modelled from the spec: `save` on a detector serializes its classifier;
with no classifier present there is nothing to persist. -/
def DGADetector.save_model (d : DGADetector) : Except PipelineError (List Nat) :=
  match d.modelState with
  | some m => .ok (serializeModel m)
  | none => .error .InferenceError

/-- Modelled from the spec: `load` reconstructs the classifier from the
artifact and installs it in the detector, propagating CorruptArtifact on
failure. -/
def DGADetector.load_model (d : DGADetector) (a : List Nat) :
    Except PipelineError DGADetector :=
  match deserializeModel a with
  | .ok m => .ok ⟨d.lr, some m⟩
  | .error e => .error e

/-- Modelled from the spec (section 4.5, the CLX predictor is external):
`predict` tokenizes a batch of domain strings and runs the forward pass on a
loaded classifier; on an un-loaded detector it fails with InferenceError.  The
detector state after the call is returned alongside the result. -/
def DGADetector.predict (fw : Forward) (d : DGADetector)
    (domains : List (List Char)) :
    Except PipelineError (List Nat) × DGADetector :=
  match d.modelState with
  | none => (.error .InferenceError, d)
  | some m =>
    (.ok (domains.map fun s => fw m.config m.params (tokenize asciiVocab MAX_LEN s)), d)

/-- Claim C9: `predict` leaves the Model Parameters and all other detector
state unchanged — the detector returned by a `predict` call is exactly the
detector it was called on, whatever forward pass the external classifier
implements. -/
theorem predict_frame (fw : Forward) (d : DGADetector) (domains : List (List Char)) :
    (DGADetector.predict fw d domains).2 = d := by
  cases h : d.modelState <;> simp [DGADetector.predict, h]

/-- Claim C1: saving a well-formed trained model and reloading it yields a
detector with byte-for-byte identical parameters, whose predictions on any
fixed input batch coincide with the original model's predictions, for every
forward-pass semantics. -/
theorem save_load_roundtrip_predict (fw : Forward) (lr lr₂ : ℚ)
    (m : RNNClassifier) (hwf : m.WF) (domains : List (List Char)) :
    ∃ a d₂,
      (DGADetector.mk lr (some m)).save_model = .ok a ∧
      (DGADetector.new lr₂).load_model a = .ok d₂ ∧
      d₂.modelState = some m ∧
      (DGADetector.predict fw d₂ domains).1 =
        (DGADetector.predict fw (DGADetector.mk lr (some m)) domains).1 := by
  refine ⟨serializeModel m, ⟨lr₂, some m⟩, rfl, ?_, rfl, rfl⟩
  simp [DGADetector.load_model, DGADetector.new, deserialize_serialize m hwf]

/-- A small well-formed concrete model used to instantiate the persistence
claims: one layer, one-character vocabulary, hidden width one, one class. -/
def tinyModel : RNNClassifier :=
  ⟨⟨1, 1, 1, 1⟩, List.replicate 15 0⟩

/-- A trivial concrete forward pass used to instantiate prediction claims. -/
def sumForward : Forward :=
  fun _ ps toks => (ps.foldl (· + ·) 0 + toks.foldl (· + ·) 0) % 2

theorem save_load_roundtrip_predict_witness :
    tinyModel.WF ∧
      ∃ a d₂,
        (DGADetector.mk LR (some tinyModel)).save_model = .ok a ∧
        (DGADetector.new 0).load_model a = .ok d₂ ∧
        d₂.modelState = some tinyModel ∧
        (DGADetector.predict sumForward d₂ [[Char.ofNat 97]]).1 =
          (DGADetector.predict sumForward
            (DGADetector.mk LR (some tinyModel)) [[Char.ofNat 97]]).1 :=
  ⟨by simp [tinyModel, RNNClassifier.WF, paramCount],
    save_load_roundtrip_predict sumForward LR 0 tinyModel
      (by simp [tinyModel, RNNClassifier.WF, paramCount]) [[Char.ofNat 97]]⟩

/-- Claim C10: on a freshly constructed detector, a successful `load_model`
fully initializes it — every subsequent `predict` call succeeds (no
InferenceError), because the artifact alone supplies configuration and
parameters. -/
theorem load_then_predict_ok (lr : ℚ) (a : List Nat) (d₂ : DGADetector)
    (h : (DGADetector.new lr).load_model a = .ok d₂) :
    ∀ (fw : Forward) (domains : List (List Char)),
      ∃ r, (DGADetector.predict fw d₂ domains).1 = .ok r := by
  intro fw domains
  simp only [DGADetector.load_model] at h
  cases hm : deserializeModel a with
  | ok m =>
    rw [hm] at h
    cases h
    exact ⟨_, rfl⟩
  | error e =>
    rw [hm] at h
    cases h

theorem load_then_predict_ok_witness :
    (∃ d₂, (DGADetector.new 0).load_model (serializeModel tinyModel) = .ok d₂) ∧
      ∃ r, (DGADetector.predict sumForward
        ⟨0, some tinyModel⟩ [[Char.ofNat 97]]).1 = .ok r :=
  ⟨⟨⟨0, some tinyModel⟩, by simp [DGADetector.load_model, DGADetector.new,
      deserializeModel, serializeModel, tinyModel, paramCount]⟩,
    load_then_predict_ok 0 (serializeModel tinyModel) ⟨0, some tinyModel⟩
      (by simp [DGADetector.load_model, DGADetector.new,
        deserializeModel, serializeModel, tinyModel, paramCount])
      sumForward [[Char.ofNat 97]]⟩

/-- Modelled from the spec: one step of a linear congruential pseudorandom
generator driving the seeded shuffle. -/
def lcgNext (s : Nat) : Nat :=
  (1103515245 * s + 12345) % 2147483648

/-- Modelled from the spec: a seeded selection shuffle; the fuel is the list
length, so the recursion is structural. -/
def shuffleAux {α : Type} : Nat → Nat → List α → List α
  | 0, _, xs => xs
  | _, _, [] => []
  | fuel + 1, seed, x :: rest =>
    let xs := x :: rest
    let i := seed % xs.length
    xs.getD i x :: shuffleAux fuel (lcgNext seed) (xs.eraseIdx i)

/-- Modelled from the spec: a deterministic shuffle of a list driven entirely
by the seed. -/
def shuffle {α : Type} (seed : Nat) (xs : List α) : List α :=
  shuffleAux xs.length seed xs

/-- Modelled from the spec (section 4.3, `cuml.train_test_split` is external):
splits the samples into train and test partitions with the given fraction (in
percent), after a shuffle that is a deterministic function of the seed, so the
partitioning is stable and reproducible for a fixed seed. -/
def train_test_split {α : Type} (seed : Nat) (xs : List α) (train_pct : Nat) :
    List α × List α :=
  let sh := shuffle seed xs
  let k := xs.length * train_pct / 100
  (sh.take k, sh.drop k)

/-- Claim C4: for a fixed seed, sample set and fraction, two invocations of
the train/test partitioning produce identical train and test partitions, so a
re-split performed later for evaluation selects the same test partition as
the one used during training. -/
theorem train_test_split_reproducible {α : Type} (seed₁ seed₂ : Nat)
    (xs₁ xs₂ : List α) (pct₁ pct₂ : Nat)
    (hseed : seed₁ = seed₂) (hxs : xs₁ = xs₂) (hpct : pct₁ = pct₂) :
    (train_test_split seed₁ xs₁ pct₁).1 = (train_test_split seed₂ xs₂ pct₂).1 ∧
      (train_test_split seed₁ xs₁ pct₁).2 = (train_test_split seed₂ xs₂ pct₂).2 := by
  rw [hseed, hxs, hpct]
  exact ⟨rfl, rfl⟩

theorem train_test_split_reproducible_witness :
    ((42 : Nat) = 42 ∧ [10, 20, 30] = [10, 20, 30] ∧ (70 : Nat) = 70) ∧
      ((train_test_split 42 [10, 20, 30] 70).1 = (train_test_split 42 [10, 20, 30] 70).1 ∧
        (train_test_split 42 [10, 20, 30] 70).2 = (train_test_split 42 [10, 20, 30] 70).2) :=
  ⟨⟨rfl, rfl, rfl⟩,
    train_test_split_reproducible 42 42 [10, 20, 30] [10, 20, 30] 70 70 rfl rfl rfl⟩

/-- Modelled from the spec: the per-batch parameter-update step (loss gradient
and optimizer) belongs to the external library; it is any function from
current parameters and a batch of tokenized labeled samples to new
parameters. -/
def UpdateStep : Type :=
  List Nat → List (List Nat × Nat) → List Nat

/-- Modelled from the spec: grouping the training partition into mini-batches
of the given size; the fuel is the list length, so the recursion is
structural. -/
def chunksAux {α : Type} : Nat → Nat → List α → List (List α)
  | 0, _, _ => []
  | _, _, [] => []
  | fuel + 1, k, xs => xs.take k :: chunksAux fuel k (xs.drop k)

/-- Mini-batches of size `k` of a list. -/
def chunks {α : Type} (k : Nat) (xs : List α) : List (List α) :=
  chunksAux xs.length k xs

/-- Modelled from the spec (section 4.3, `DGADetector.train_model` is
external): validates that samples and labels have the same length and that
every label is 0 or 1 (otherwise DataError), splits off the training
partition with the seeded split, tokenizes it, and for each epoch folds the
external update step over the mini-batches.  With `epochs = 0` the epoch loop
never runs. -/
def train_model (update : UpdateStep) (seed : Nat) (d : DGADetector)
    (samples : List (List Char)) (labels : List Nat)
    (batch_size epochs train_pct : Nat) : Except PipelineError DGADetector :=
  match d.modelState with
  | none => .error .ConfigurationError
  | some m =>
    if samples.length != labels.length then .error .DataError
    else if labels.any (fun l => (l != 0) && (l != 1)) then .error .DataError
    else
      let pairs := samples.zip labels
      let tokenized :=
        ((train_test_split seed pairs train_pct).1).map
          (fun p => (tokenize asciiVocab MAX_LEN p.1, p.2))
      let batches := chunks batch_size tokenized
      let finalParams :=
        (List.range epochs).foldl (fun ps _ => batches.foldl update ps) m.params
      .ok ⟨d.lr, some ⟨m.config, finalParams⟩⟩

/-- Claim C2: `train_model` fails with DataError whenever the samples list and
the labels list have different lengths, or some label is neither 0 nor 1. -/
theorem train_model_data_error (update : UpdateStep) (seed : Nat)
    (d : DGADetector) (m : RNNClassifier) (hm : d.modelState = some m)
    (samples : List (List Char)) (labels : List Nat)
    (batch_size epochs train_pct : Nat)
    (h : samples.length ≠ labels.length ∨ ∃ l ∈ labels, l ≠ 0 ∧ l ≠ 1) :
    train_model update seed d samples labels batch_size epochs train_pct =
      .error .DataError := by
  simp only [train_model, hm]
  rcases h with h | ⟨l, hl, hl0, hl1⟩
  · simp [h]
  · by_cases hlen : samples.length = labels.length
    · have hany : labels.any (fun l => (l != 0) && (l != 1)) = true := by
        simp only [List.any_eq_true]
        exact ⟨l, hl, by simp [hl0, hl1]⟩
      simp [hlen, hany]
    · simp [hlen]

theorem train_model_data_error_witness :
    ((⟨LR, some tinyModel⟩ : DGADetector).modelState = some tinyModel ∧
      ([[Char.ofNat 97], [Char.ofNat 98]].length ≠ [0].length ∨
        ∃ l ∈ [0], l ≠ 0 ∧ l ≠ 1)) ∧
      train_model (fun ps _ => ps) 42 ⟨LR, some tinyModel⟩
        [[Char.ofNat 97], [Char.ofNat 98]] [0] 10000 25 70 = .error .DataError :=
  ⟨⟨rfl, Or.inl (by decide)⟩,
    train_model_data_error (fun ps _ => ps) 42 ⟨LR, some tinyModel⟩ tinyModel rfl
      [[Char.ofNat 97], [Char.ofNat 98]] [0] 10000 25 70 (Or.inl (by decide))⟩

/-- Claim C6: training an initialized model with `epochs = 0` leaves the Model
Parameters exactly equal to their initialization values: the resulting
detector carries the very same classifier. -/
theorem train_model_zero_epochs (update : UpdateStep) (seed : Nat)
    (d : DGADetector) (m : RNNClassifier) (hm : d.modelState = some m)
    (samples : List (List Char)) (labels : List Nat)
    (batch_size train_pct : Nat)
    (hlen : samples.length = labels.length)
    (hlab : ∀ l ∈ labels, l = 0 ∨ l = 1) :
    train_model update seed d samples labels batch_size 0 train_pct =
      .ok ⟨d.lr, some m⟩ := by
  have hany : labels.any (fun l => (l != 0) && (l != 1)) = false := by
    simp only [List.any_eq_false]
    intro l hl
    rcases hlab l hl with h | h <;> simp [h]
  simp [train_model, hm, hlen, hany]

theorem train_model_zero_epochs_witness :
    ((⟨LR, some tinyModel⟩ : DGADetector).modelState = some tinyModel ∧
      [[Char.ofNat 97], [Char.ofNat 98]].length = [0, 1].length ∧
      (∀ l ∈ [0, 1], l = 0 ∨ l = 1)) ∧
      train_model (fun ps _ => ps.map (· + 1)) 42 ⟨LR, some tinyModel⟩
        [[Char.ofNat 97], [Char.ofNat 98]] [0, 1] 10000 0 70 =
        .ok ⟨LR, some tinyModel⟩ :=
  ⟨⟨rfl, rfl, by decide⟩,
    train_model_zero_epochs (fun ps _ => ps.map (· + 1)) 42 ⟨LR, some tinyModel⟩
      tinyModel rfl [[Char.ofNat 97], [Char.ofNat 98]] [0, 1] 10000 70 rfl
      (by decide)⟩

/-- Modelled from the spec (section 4.3): the Trainer's internal per-epoch
evaluation on the held-out test partition — run the forward pass on every
test sample and report the fraction of predictions that match the label,
without updating parameters. -/
def evaluate_accuracy (fw : Forward) (cfg : ModelConfig) (ps : List Nat)
    (test : List (List Char × Nat)) : ℚ :=
  let nMatches :=
    test.countP (fun p => fw cfg ps (tokenize asciiVocab MAX_LEN p.1) == p.2)
  (nMatches : ℚ) / (test.length : ℚ)

/-- Reference accuracy following the spec's words (and notebook cell 19's
`sklearn.metrics.accuracy_score`): the number of positions where prediction
and truth match, divided by the total number of samples. -/
def accuracy_score (pred truth : List Nat) : ℚ :=
  (((pred.zip truth).countP (fun q => q.1 == q.2)) : ℚ) / (truth.length : ℚ)

/-- Claim C5: on every held-out test partition, the Trainer's internal
per-epoch evaluation reports exactly the reference accuracy (matching
predictions divided by total samples) computed independently from the
predictions and labels of that same partition. -/
theorem evaluate_accuracy_eq_accuracy_score (fw : Forward) (cfg : ModelConfig)
    (ps : List Nat) (test : List (List Char × Nat)) :
    evaluate_accuracy fw cfg ps test =
      accuracy_score
        (test.map fun p => fw cfg ps (tokenize asciiVocab MAX_LEN p.1))
        (test.map Prod.snd) := by
  simp only [evaluate_accuracy, accuracy_score, List.zip_map', List.countP_map,
    List.length_map]
  rfl

end DGA
